import Mathlib

/-!
Shallow embedding of the ITA scoring pipeline of `src/ita_calc.py`.

Modelling conventions:
* pandas float64 values are modelled by exact rationals; a missing value
  (`NaN`) is `Option.none`;
* the numeric coercion of raw cells (`pd.to_numeric(..., errors="coerce")`
  applied after the sentinel tokens `#REF!` and `x` are replaced by `NaN`)
  is taken as the interface boundary: a record field of type `Option ℚ`
  holds the already-coerced value of the cell;
* `Series.round(2)` / `np.round(x, 2)` is modelled as exact
  round-half-to-even at two decimal places;
* `str.strip` / `str.upper` and the regex word boundary `\b` are modelled
  over the ASCII fragment exercised by the data (`String.trim`,
  `String.toUpper`, ASCII word characters);
* the two `sort_values` calls only permute rows, every property settled
  here is row-order independent, so the sorts are not reproduced.
-/

attribute [local semireducible] Rat.add Rat.mul Rat.inv Rat.sub Rat.ofScientific

namespace ITA

/-- Round-half-to-even of a rational to an integer (numpy rounding mode). -/
def roundHalfEven (x : ℚ) : ℤ :=
  let f := ⌊x⌋
  let frac := x - f
  if frac < 1/2 then f
  else if 1/2 < frac then f + 1
  else if 2 ∣ f then f else f + 1

/-- Rounding to two decimal places, as in `Series.round(2)`. -/
def round2 (x : ℚ) : ℚ := (roundHalfEven (100 * x) : ℚ) / 100

/-- A raw spreadsheet cell, used where the source compares a column both
with a number and with a string (the `apareceu-na-avaliacao-semestre-anterior?`
column at lines 262-266 of `ita_calc.py`). -/
inductive Cell where
  | num : ℚ → Cell
  | txt : String → Cell
  | blank : Cell
deriving DecidableEq, Repr

/-- One row of the sheet "PLANILHA COMPLETA", restricted to the columns the
scoring pass reads.  Numeric-bearing columns appear post-coercion
(`Option ℚ`, `none` = NaN after sentinel removal); free-text columns are
`Option String` (`none` = missing cell). -/
structure Record where
  porcentagem_aprovacao : Option ℚ
  qtd_matricula_cancelada : Option ℚ
  qtd_matriculada : Option ℚ
  qtd_rep_frequencia : Option ℚ
  porcentagem_historica_rep_freq : Option ℚ
  tempo_ufpr_sem : Option ℚ
  ch_integralizada : Option ℚ
  apareceu_avaliacao_anterior : Cell
  classe_da_renda : Option String
  nota_da_renda : Option ℚ
  status_criterios : Option String
  esteve_avaliacao_2024 : Option String
deriving DecidableEq, Repr

/-- Lines 191-194: `porcentagem_aprov_num`, coercion with `fillna(0.0)`. -/
def porcentagem_aprov_num (r : Record) : ℚ := r.porcentagem_aprovacao.getD 0

/-- Line 195: `risco_aprovacao = ((100 - porcentagem_aprov_num) / 100) ** 2`. -/
def risco_aprovacao (p : Option ℚ) : ℚ := ((100 - p.getD 0) / 100) ^ 2

/-- Lines 198-207: `risco_cancelamento`.  The fraction
`cancelada / matriculada` is rounded to 2 decimals; values `≥ 0.5` are
forced to `1.0`, the rest clipped to `≥ 0`.  Float division of a nonzero
value by zero yields `±inf` (hence `1.0` for a positive numerator and `0`
after the clip for a negative one), while `0/0` or any NaN operand yields
NaN (`none`). -/
def risco_cancelamento (cancelada matriculada : Option ℚ) : Option ℚ :=
  match cancelada, matriculada with
  | some c, some m =>
    if m = 0 then
      if 0 < c then some 1
      else if c < 0 then some 0
      else none
    else
      let f := round2 (c / m)
      some (round2 (if 1/2 ≤ f then 1 else max 0 f))
  | _, _ => none

/-- Lines 210-223: `risco_rep_freq`.  Both counts are rounded to 2
decimals first; every comparison with a NaN operand is false, so a missing
count yields `0`. -/
def risco_rep_freq (matriculada rep_frequencia : Option ℚ) : ℚ :=
  match matriculada, rep_frequencia with
  | some m0, some f0 =>
    let m := round2 m0
    let f := round2 f0
    if (m ≤ 2 ∧ 0 < f) ∨ (m = 3 ∧ 1 < f) ∨ (m = 4 ∧ 1 < f) ∨ (5 ≤ m ∧ 2 < f) then 1 else 0
  | _, _ => 0

/-- Lines 226-230: `risco_hist_freq`, coercion with `fillna(0.0)` then
`clip(0, 1)`. -/
def risco_hist_freq (h : Option ℚ) : ℚ := min 1 (max 0 (h.getD 0))

/-- Lines 262-266: `risco_historico` is 1 when the raw cell equals the
number `1` or the string `"0"` (the inherited quirk), else 0. -/
def risco_historico (v : Cell) : ℚ :=
  if v = Cell.num 1 ∨ v = Cell.txt "0" then 1 else 0

/-- Line 233: `TEMPO UFPR - SEM` after `fillna(1).clip(lower=1)`. -/
def tempo_ufpr_clean (t : Option ℚ) : ℚ := max 1 (t.getD 1)

/-- Line 234: `ch-integralizada` after `fillna(0).clip(0, 100)`. -/
def ch_integralizada_clean (ch : Option ℚ) : ℚ := min 100 (max 0 (ch.getD 0))

/-- Line 236: `ch_media_esperada = 8 * TEMPO UFPR - SEM` (cleaned). -/
def ch_media_esperada (r : Record) : ℚ := 8 * tempo_ufpr_clean r.tempo_ufpr_sem

/-- Line 238: `cond_boost`, expected hours above 110 and approval below 50. -/
def cond_boost (r : Record) : Bool :=
  decide (110 < ch_media_esperada r ∧ porcentagem_aprov_num r < 50)

/-- Line 239: `ajuste_tempo`, the semester multiplier (5x under the boost). -/
def ajuste_tempo (r : Record) : ℚ :=
  if cond_boost r then 5 * tempo_ufpr_clean r.tempo_ufpr_sem
  else tempo_ufpr_clean r.tempo_ufpr_sem

/-- Lines 241-245: raw integralization risk
`(1 - ch_integralizada / ch_media_esperada) * ajuste_tempo`, clipped to `≥ 0`. -/
def risco_chi_raw (r : Record) : ℚ :=
  max 0 ((1 - ch_integralizada_clean r.ch_integralizada / ch_media_esperada r) * ajuste_tempo r)

/-- Insertion of a rational into an ascending-sorted list. -/
def insertAsc (x : ℚ) : List ℚ → List ℚ
  | [] => [x]
  | y :: ys => if x ≤ y then x :: y :: ys else y :: insertAsc x ys

/-- Ascending value sort (the sorted multiset is algorithm-independent,
so insertion sort models the sort performed inside `Series.quantile`). -/
def sortAsc (xs : List ℚ) : List ℚ := xs.foldr insertAsc []

/-- `Series.quantile(q)` with the default linear interpolation: with the
values sorted ascending as `v 0, ..., v (n-1)` and `h = q * (n - 1)`, the
quantile is `v ⌊h⌋ + (h - ⌊h⌋) * (v (⌊h⌋ + 1) - v ⌊h⌋)`. -/
def quantileLinear (q : ℚ) (xs : List ℚ) : ℚ :=
  let s := sortAsc xs
  let n := s.length
  let h : ℚ := q * ((n : ℚ) - 1)
  let i : ℕ := (⌊h⌋).toNat
  let lo := s.getD i 0
  let hi := s.getD (i + 1) lo
  lo + (h - (⌊h⌋ : ℚ)) * (hi - lo)

/-- Raw risks of the non-boosted population (`df.loc[mask_non, ...]`). -/
def non_boost_raws (rs : List Record) : List ℚ :=
  (rs.filter fun r => !cond_boost r).map risco_chi_raw

/-- Line 249: `min_val`, the 5th percentile of non-boosted raw risk. -/
def chi_min_val (rs : List Record) : ℚ := quantileLinear (1/20) (non_boost_raws rs)

/-- Line 250: `max_val`, the 95th percentile of non-boosted raw risk. -/
def chi_max_val (rs : List Record) : ℚ := quantileLinear (19/20) (non_boost_raws rs)

/-- Line 251: `span`, the percentile span, replaced by 1 when it is zero. -/
def chi_span (rs : List Record) : ℚ :=
  if chi_max_val rs - chi_min_val rs = 0 then 1 else chi_max_val rs - chi_min_val rs

/-- Lines 241-259: the full `risco_ch_integralizada` column.  When the
non-boosted population is empty (`mask_non.any()` false) no rescale
happens; boosted rows are then overwritten with `1.00`, non-boosted rows
are multiplied by `0.25`, and the whole column is rounded to 2 decimals. -/
def risco_ch_integralizada_col (rs : List Record) : List ℚ :=
  if (non_boost_raws rs).isEmpty then
    rs.map fun r => if cond_boost r then round2 1 else round2 (risco_chi_raw r)
  else
    rs.map fun r =>
      if cond_boost r then round2 1
      else round2 ((min 1 (max 0 ((risco_chi_raw r - chi_min_val rs) / chi_span rs))) * (1/4))

/-- Modelled from the spec (claim side, for comparison only): the
normalization of `risco_ch_integralizada` exactly as claim C1 words it,
with no final rounding step. -/
def risco_ch_integralizada_spec_col (rs : List Record) : List ℚ :=
  if (non_boost_raws rs).isEmpty then
    rs.map fun r => if cond_boost r then 1 else risco_chi_raw r
  else
    rs.map fun r =>
      if cond_boost r then 1
      else (min 1 (max 0 ((risco_chi_raw r - chi_min_val rs) / chi_span rs))) * (1/4)

/-- Lines 269-283: `risco_ch_cursada`, a step function of the cleaned
`TEMPO UFPR - SEM` value (the re-coercion at line 269 is the identity on
the already cleaned column).  `np.select` returns NaN when no condition
holds, which happens in the gaps (99,100), (199,200) and (299,300). -/
def risco_ch_cursada (t : Option ℚ) : Option ℚ :=
  let c := tempo_ufpr_clean t
  if 300 ≤ c then some 0
  else if 200 ≤ c ∧ c ≤ 299 then some (33/100)
  else if 100 ≤ c ∧ c ≤ 199 then some (66/100)
  else if 0 ≤ c ∧ c ≤ 99 then some 1
  else none

/-- Python `str.strip()` on a character list: whitespace removed from both
ends. -/
def pyStrip (cs : List Char) : List Char :=
  ((cs.dropWhile Char.isWhitespace).reverse.dropWhile Char.isWhitespace).reverse

/-- Python `str.upper()` on one character: ASCII plus the accented
Portuguese letters appearing in this pipeline (full Unicode case mapping
is out of modelled scope). -/
def pyToUpper (c : Char) : Char :=
  if c = 'ã' then 'Ã'
  else if c = 'á' then 'Á'
  else if c = 'à' then 'À'
  else if c = 'â' then 'Â'
  else if c = 'é' then 'É'
  else if c = 'ê' then 'Ê'
  else if c = 'í' then 'Í'
  else if c = 'ó' then 'Ó'
  else if c = 'ô' then 'Ô'
  else if c = 'õ' then 'Õ'
  else if c = 'ú' then 'Ú'
  else if c = 'ç' then 'Ç'
  else c.toUpper

/-- Python `str.upper()` on a character list. -/
def pyUpper (cs : List Char) : List Char := cs.map pyToUpper

/-- Line 57: the income class after `astype(str).str.strip().str.upper()`
(a missing cell stringifies to `"nan"` and hence `"NAN"`). -/
def classe_norm (classe : Option String) : String :=
  String.mk (pyUpper (pyStrip (classe.getD "nan").data))

/-- Lines 41-73, `aplicar_regra_renda` on one row: `np.select` over the
eight ordered conditions with default 0.  A NaN income metric falsifies
every condition. -/
def aplicar_regra_renda (classe : Option String) (nota : Option ℚ) : ℤ :=
  let c := classe_norm classe
  match nota with
  | none => 0
  | some n =>
    if c = "A" ∧ 25 < n then 30
    else if c = "A" ∧ 11 ≤ n ∧ n ≤ 25 then 25
    else if c = "A" ∧ 1 ≤ n ∧ n ≤ 10 then 20
    else if c = "B" ∧ 11 ≤ n then 15
    else if c = "B" ∧ 0 ≤ n ∧ n ≤ 10 then 10
    else if c = "C" ∧ 11 ≤ n then 8
    else if c = "C" ∧ 0 ≤ n ∧ n ≤ 10 then 5
    else if c = "C" ∧ n < 0 then 2
    else 0

/-- An ASCII word character, the `\w` class of the regex `\bNAO\b`. -/
def isWordChar (c : Char) : Bool := c.isAlphanum || c = '_'

/-- Fuel-driven scanner of the regex substitution `re.sub(r"\bNAO\b", "NÃO", s)`:
every occurrence of `NAO` delimited by word boundaries is replaced, and
scanning resumes after a replacement.  The fuel (an upper bound on the
remaining length) makes the recursion structural. -/
def replNAOAux : ℕ → Option Char → List Char → List Char
  | 0, _, cs => cs
  | fuel + 1, prev, 'N' :: 'A' :: 'O' :: rest =>
    if (prev.all fun c => !isWordChar c) && (rest.head?.all fun c => !isWordChar c) then
      'N' :: 'Ã' :: 'O' :: replNAOAux fuel (some 'O') rest
    else
      'N' :: replNAOAux fuel (some 'N') ('A' :: 'O' :: rest)
  | fuel + 1, _, c :: rest => c :: replNAOAux fuel (some c) rest
  | _ + 1, _, [] => []

/-- The substitution `re.sub(r"\bNAO\b", "NÃO", s)` itself. -/
def replNAO (prev : Option Char) (cs : List Char) : List Char :=
  replNAOAux cs.length prev cs

/-- Lines 75-81, `_to_yesno` on one cell: strip, uppercase, canonicalize
the word `NAO` to `NÃO`, then send `""`, `"NAN"` and `"NONE"` to NaN. -/
def to_yesno (cell : Option String) : Option String :=
  match cell with
  | none => none
  | some s =>
    let x := String.mk (replNAO none (pyUpper (pyStrip s.data)))
    if x = "" ∨ x = "NAN" ∨ x = "NONE" then none else some x

/-- Lines 83-89, `_to_bool_aval2024`, object-dtype branch: `SIM ↦ True`,
`NÃO ↦ False`, anything else `fillna(False)`.  (For a boolean or numeric
column the source takes the value itself, resp. its nonzero test; the
pipeline claims only exercise the text branch.) -/
def to_bool_aval2024 (cell : Option String) : Bool :=
  match to_yesno cell with
  | some "SIM" => true
  | _ => false

/-- Lines 91-144, `aplicar_indicador_acomp_adesao` on one row: `np.select`
over the seven ordered conditions; the default outcome is a NaN score with
the class `"Regra não classificada"`. -/
def aplicar_indicador_acomp_adesao (status : Option String) (esteve2024 : Bool)
    (ingressante : Bool) : Option ℚ × String :=
  let st := to_yesno status
  if ingressante then (some 0, "Sem risco / não pontua")
  else if esteve2024 = false ∧ st = some "SIM" then (some (2/10), "Estável")
  else if esteve2024 = false ∧ st = some "NÃO" then (some (6/10), "Em alerta")
  else if esteve2024 = false ∧ st = none then (some (8/10), "Prioridade de inserção")
  else if esteve2024 = true ∧ st = some "SIM" then (some (1/10), "Estável")
  else if esteve2024 = true ∧ st = some "NÃO" then (some 1, "Crítico / penalização máxima")
  else if esteve2024 = true ∧ st = none then (some (9/10), "Prioridade de convocação")
  else (none, "Regra não classificada")

/-- Lines 146-162, `calcular_ita_final`, the index itself:
`(nota_final*6 + pontuacao_renda*3 + indicador*1) / 10`; any NaN input
propagates. -/
def ita_score (nota_final pontuacao_renda indicador : Option ℚ) : Option ℚ :=
  match nota_final, pontuacao_renda, indicador with
  | some nf, some pr, some ia => some ((nf * 6 + pr * 3 + ia * 1) / 10)
  | _, _, _ => none

/-- Lines 164-171: the `np.select` classification of the ITA value in
evaluation order, default `"não classificado"` (reached by NaN). -/
def classificar_ita (x : Option ℚ) : String :=
  match x with
  | some v =>
    if v < 3/10 then "baixo risco"
    else if 3/10 ≤ v ∧ v ≤ 6/10 then "risco moderado"
    else if 6/10 < v then "risco alto"
    else "não classificado"
  | none => "não classificado"

/-- Modelled from the spec (claim side, for comparison only): the
classification exactly as claim C2 words it for a non-missing ITA value,
with the `< 0.3` rule evaluated before the inclusive band. -/
def classificacao_ita_spec (v : ℚ) : String :=
  if v < 3/10 then "baixo risco"
  else if v ≤ 6/10 then "risco moderado"
  else "risco alto"

/-- One fully scored row: the seven sub-scores, the six weighted partial
scores (weights 4, 1.5, 0.5, 3, 0.5, 0.5 at lines 286-299), `nota_final`
(a NaN partial is skipped by `DataFrame.sum`), the income and adherence
scores, and the composed ITA with its classification. -/
structure Scored where
  source : Record
  risco_aprovacao_v : ℚ
  risco_cancelamento_v : Option ℚ
  risco_rep_freq_v : ℚ
  risco_hist_freq_v : ℚ
  risco_ch_integralizada_v : ℚ
  risco_historico_v : ℚ
  risco_ch_cursada_v : Option ℚ
  nota_parcial_aprovacao : ℚ
  nota_parcial_rep_freq : ℚ
  nota_parcial_hist_freq : ℚ
  nota_parcial_ch_integralizada : ℚ
  nota_parcial_historico : ℚ
  nota_parcial_ch_cursada : Option ℚ
  nota_final : ℚ
  pontuacao_renda : ℤ
  indicador_acomp_adesao : Option ℚ
  classificacao_acomp_adesao : String
  ita : Option ℚ
  classificacao_ita : String
deriving DecidableEq, Repr

/-- Scoring of one record, given its (collection-dependent) value of
`risco_ch_integralizada`. -/
def scoreOne (r : Record) (chi : ℚ) : Scored :=
  let rAprov := risco_aprovacao r.porcentagem_aprovacao
  let rCanc := risco_cancelamento r.qtd_matricula_cancelada r.qtd_matriculada
  let rRep := risco_rep_freq r.qtd_matriculada r.qtd_rep_frequencia
  let rHist := risco_hist_freq r.porcentagem_historica_rep_freq
  let rHistorico := risco_historico r.apareceu_avaliacao_anterior
  let rCurs := risco_ch_cursada r.tempo_ufpr_sem
  let pAprov := round2 (rAprov * 4)
  let pRep := round2 (rRep * (3/2))
  let pHist := round2 (rHist * (1/2))
  let pChi := round2 (chi * 3)
  let pHistorico := round2 (rHistorico * (1/2))
  let pCurs := rCurs.map fun x => round2 (x * (1/2))
  let nf := round2 (pAprov + pRep + pHist + pChi + pHistorico + pCurs.getD 0)
  let renda := aplicar_regra_renda r.classe_da_renda r.nota_da_renda
  let ind := aplicar_indicador_acomp_adesao r.status_criterios
    (to_bool_aval2024 r.esteve_avaliacao_2024) (decide (ch_media_esperada r < 24))
  let itav := ita_score (some nf) (some (renda : ℚ)) ind.1
  { source := r
    risco_aprovacao_v := rAprov
    risco_cancelamento_v := rCanc
    risco_rep_freq_v := rRep
    risco_hist_freq_v := rHist
    risco_ch_integralizada_v := chi
    risco_historico_v := rHistorico
    risco_ch_cursada_v := rCurs
    nota_parcial_aprovacao := pAprov
    nota_parcial_rep_freq := pRep
    nota_parcial_hist_freq := pHist
    nota_parcial_ch_integralizada := pChi
    nota_parcial_historico := pHistorico
    nota_parcial_ch_cursada := pCurs
    nota_final := nf
    pontuacao_renda := renda
    indicador_acomp_adesao := ind.1
    classificacao_acomp_adesao := ind.2
    ita := itav
    classificacao_ita := classificar_ita itav }

/-- The full scoring pass over the record set: per-row calculators plus the
collection-level `risco_ch_integralizada` normalization.  The two
`sort_values` calls are omitted: they only permute rows. -/
def scoreRecords (rs : List Record) : List Scored :=
  (rs.zip (risco_ch_integralizada_col rs)).map fun p => scoreOne p.1 p.2

section Merger

variable {κ : Type} [DecidableEq κ] {α β : Type}

/-- `drop_duplicates(subset="GRR", keep="last")`: a row survives when no
later row carries the same key. -/
def drop_duplicates_keep_last : List (κ × α) → List (κ × α)
  | [] => []
  | x :: xs =>
    if xs.any fun y => decide (y.1 = x.1) then drop_duplicates_keep_last xs
    else x :: drop_duplicates_keep_last xs

/-- The right-side payloads matching a key (pandas matches NaN keys with
NaN keys, so a missing key is just another key value). -/
def rightMatches (ys : List (κ × β)) (k : κ) : List β :=
  (ys.filter fun s => decide (s.1 = k)).map fun s => s.2

/-- One left row of a left merge: replicated once per matching right row,
or completed with NaN when no right row matches. -/
def merge_left_row (ys : List (κ × β)) (x : κ × α) : List (κ × α × Option β) :=
  if (rightMatches ys x.1).isEmpty then [(x.1, x.2, none)]
  else (rightMatches ys x.1).map fun b => (x.1, x.2, some b)

/-- `left.merge(right, on=key, how="left")`: every left row is kept. -/
def merge_left (xs : List (κ × α)) (ys : List (κ × β)) : List (κ × α × Option β) :=
  xs.flatMap (merge_left_row ys)

/-- One left row of an outer merge, as in a left merge with the left
payload wrapped. -/
def merge_outer_row (ys : List (κ × β)) (x : κ × α) : List (κ × Option α × Option β) :=
  if (rightMatches ys x.1).isEmpty then [(x.1, some x.2, none)]
  else (rightMatches ys x.1).map fun b => (x.1, some x.2, some b)

/-- `left.merge(right, on=key, how="outer")`: matched rows as in a left
merge, followed by the right rows whose key never occurs on the left.
(pandas additionally sorts an outer result by key; row order is irrelevant
to every property settled here.) -/
def merge_outer (xs : List (κ × α)) (ys : List (κ × β)) : List (κ × Option α × Option β) :=
  xs.flatMap (merge_outer_row ys)
  ++ ((ys.filter fun s => !(xs.any fun x => decide (x.1 = s.1))).map fun s => (s.1, none, some s.2))

/-- Lines 333-342: dedup of the three auxiliary sheets and their outer
union on `GRR`. -/
def servicos_unificado {β1 β2 β3 : Type} (social : List (κ × β1)) (psicologia : List (κ × β2))
    (geral : List (κ × β3)) : List (κ × Option (Option β1 × Option β2) × Option β3) :=
  merge_outer (merge_outer (drop_duplicates_keep_last social) (drop_duplicates_keep_last psicologia))
    (drop_duplicates_keep_last geral)

/-- Lines 345-351: the fusion chain of claim C3 — left join of the unified
services onto the scored detail table followed by the left join of the
normalized form table.  The per-row enrichment steps between the two joins
(income rule, adherence rule, ITA composition, sort) neither add nor drop
rows and are omitted here. -/
def merged_final {β1 β2 β3 δ ε : Type} (detail : List (κ × δ)) (social : List (κ × β1))
    (psicologia : List (κ × β2)) (geral : List (κ × β3)) (form : List (κ × ε)) :=
  merge_left (merge_left detail (servicos_unificado social psicologia geral)) form

end Merger

/-- The first maximal run of digit characters of a string, as captured by
`str.extract(r"(\d+)")`; `none` when the string has no digit. -/
def firstDigitRun (s : String) : Option String :=
  match s.data.dropWhile fun c => !c.isDigit with
  | [] => none
  | cs => some (String.mk (cs.takeWhile fun c => c.isDigit))

/-- Decimal value of a digit string (the `astype(int)` parse at line 29). -/
def digitsToNat (s : String) : ℕ :=
  s.data.foldl (fun n c => 10 * n + (c.toNat - Char.toNat (Char.ofNat 48))) 0

/-- Lines 22-32, `padronizar_grr` on one identifier value: extract the
first digit run, parse it as an integer (`astype(int)`), restringify it
(`astype(str)`, which drops leading zeros) and prefix `"GRR"`; a value
without digits becomes a missing key. -/
def padronizar_grr_valor (s : String) : Option String :=
  (firstDigitRun s).map fun d => "GRR" ++ toString (digitsToNat d)

/-- Modelled from the spec (claim side, for comparison only): `"GRR"`
followed by the first digit run exactly as captured, leading zeros
preserved, as claim C6 words it. -/
def padronizar_grr_spec (s : String) : Option String :=
  (firstDigitRun s).map fun d => "GRR" ++ d

/-- A fully-populated base row used by the concrete instances below:
approval 100 (never boosted), one semester, 8 completed hours. -/
def recBase : Record :=
  { porcentagem_aprovacao := some 100
    qtd_matricula_cancelada := none
    qtd_matriculada := none
    qtd_rep_frequencia := none
    porcentagem_historica_rep_freq := none
    tempo_ufpr_sem := some 1
    ch_integralizada := some 8
    apareceu_avaliacao_anterior := Cell.blank
    classe_da_renda := none
    nota_da_renda := none
    status_criterios := none
    esteve_avaliacao_2024 := none }

/-- Record number `k` of the demo population: raw integralization risk
exactly `k` (zero completed hours over `k` semesters; record 0 instead has
its expected hours fully completed, hence raw risk 0).  Approval is 100,
so no record is boosted. -/
def demoRec (k : ℕ) : Record :=
  if k = 0 then recBase
  else { recBase with tempo_ufpr_sem := some (k : ℚ), ch_integralizada := some 0 }

/-- The 101-record population whose non-boosted raw risks are 0, 1, ..., 100. -/
def demo101 : List Record := (List.range 101).map demoRec

/-- A 3-record population with raw risks 0, 1, 2. -/
def demo3 : List Record := [demoRec 0, demoRec 1, demoRec 2]

/-! Helper lemmas about rounding. -/

theorem floor_le_roundHalfEven (x : ℚ) : ⌊x⌋ ≤ roundHalfEven x := by
  unfold roundHalfEven
  dsimp only
  split_ifs <;> omega

theorem roundHalfEven_le_ceil (x : ℚ) : roundHalfEven x ≤ ⌈x⌉ := by
  have hfc : (⌊x⌋ : ℚ) < x → ⌊x⌋ + 1 ≤ ⌈x⌉ := fun h =>
    Int.add_one_le_iff.mpr (Int.lt_ceil.mpr h)
  unfold roundHalfEven
  dsimp only
  split_ifs with h1 h2 h3
  · exact Int.floor_le_ceil x
  · exact hfc (by linarith)
  · exact Int.floor_le_ceil x
  · exact hfc (by linarith)

theorem round2_nonneg {x : ℚ} (h : 0 ≤ x) : 0 ≤ round2 x := by
  unfold round2
  have h0 : (0 : ℤ) ≤ ⌊100 * x⌋ := Int.floor_nonneg.mpr (by linarith)
  have := floor_le_roundHalfEven (100 * x)
  have : (0 : ℚ) ≤ (roundHalfEven (100 * x) : ℚ) := by exact_mod_cast le_trans h0 this
  positivity

theorem round2_le_one {x : ℚ} (h : x ≤ 1) : round2 x ≤ 1 := by
  unfold round2
  have hc : ⌈(100 : ℚ) * x⌉ ≤ 100 := Int.ceil_le.mpr (by push_cast; linarith)
  have h1 : roundHalfEven (100 * x) ≤ 100 := le_trans (roundHalfEven_le_ceil _) hc
  have h2 : (roundHalfEven (100 * x) : ℚ) ≤ 100 := by exact_mod_cast h1
  linarith

theorem round2_one : round2 1 = 1 := by decide

/-! Claim C2. -/

/-- Modelled from the spec (claim side, for comparison only): the ordered
income rule list of claim C4 as (condition, outcome) pairs, to be evaluated
first-match-wins. -/
def regras_renda_spec (c : String) (n : ℚ) : List (Bool × ℤ) :=
  [ (decide (c = "A" ∧ 25 < n), 30)
  , (decide (c = "A" ∧ 11 ≤ n ∧ n ≤ 25), 25)
  , (decide (c = "A" ∧ 1 ≤ n ∧ n ≤ 10), 20)
  , (decide (c = "B" ∧ 11 ≤ n), 15)
  , (decide (c = "B" ∧ 0 ≤ n ∧ n ≤ 10), 10)
  , (decide (c = "C" ∧ 11 ≤ n), 8)
  , (decide (c = "C" ∧ 0 ≤ n ∧ n ≤ 10), 5)
  , (decide (c = "C" ∧ n < 0), 2) ]

/-- First-match-wins evaluation of an ordered rule list with a default. -/
def firstMatch : List (Bool × ℤ) → ℤ → ℤ
  | [], d => d
  | (b, v) :: rest, d => if b then v else firstMatch rest d

/-- C2: for every record, ITA equals
`(nota_final*6 + pontuacao_renda*3 + indicador_acomp_adesao*1) / 10`, and the
classification is "baixo risco" below 0.3, "risco moderado" on the inclusive
band [0.3, 0.6] (the strict `< 0.3` rule being evaluated first), "risco alto"
above 0.6, and "não classificado" otherwise; in particular 0.29999 is
"baixo risco", 0.3 and 0.6 are "risco moderado", 0.60001 is "risco alto". -/
theorem c2_ita_formula_and_classification :
    (∀ nf pr ia : ℚ, ita_score (some nf) (some pr) (some ia) = some ((nf * 6 + pr * 3 + ia * 1) / 10))
    ∧ (∀ v : ℚ, classificar_ita (some v) = classificacao_ita_spec v)
    ∧ classificar_ita none = "não classificado"
    ∧ classificar_ita (some (29999/100000)) = "baixo risco"
    ∧ classificar_ita (some (3/10)) = "risco moderado"
    ∧ classificar_ita (some (6/10)) = "risco moderado"
    ∧ classificar_ita (some (60001/100000)) = "risco alto" := by
  refine ⟨fun nf pr ia => rfl, fun v => ?_, rfl, by decide, by decide, by decide, by decide⟩
  by_cases h1 : v < 3/10
  · simp [classificar_ita, classificacao_ita_spec, h1]
  · by_cases h2 : v ≤ 6/10
    · have h3 : 3/10 ≤ v := le_of_not_lt h1
      simp [classificar_ita, classificacao_ita_spec, h1, h2, h3]
    · have h4 : 6/10 < v := lt_of_not_le h2
      simp [classificar_ita, classificacao_ita_spec, h1, h2, h4]

/-! Claim C4. -/

/-- C4: for every row with both income columns present, the income score is
the outcome of the first matching rule of the ordered list evaluated on the
trimmed upper-cased class and the numeric metric (missing metric matches no
rule), with default 0; together with the concrete outputs named by the spec. -/
theorem c4_regra_renda_first_match :
    (∀ (cl : Option String) (n : ℚ),
      aplicar_regra_renda cl (some n) = firstMatch (regras_renda_spec (classe_norm cl) n) 0)
    ∧ (∀ cl : Option String, aplicar_regra_renda cl none = 0)
    ∧ aplicar_regra_renda (some "A") (some 30) = 30
    ∧ aplicar_regra_renda (some "A") (some 15) = 25
    ∧ aplicar_regra_renda (some "B") (some 5) = 10
    ∧ aplicar_regra_renda (some "C") (some (-1)) = 2
    ∧ aplicar_regra_renda none (some 5) = 0
    ∧ aplicar_regra_renda (some " a ") (some 15) = 25 := by
  refine ⟨fun cl n => ?_, fun cl => rfl, by decide, by decide, by decide, by decide, by decide,
    by decide⟩
  simp only [aplicar_regra_renda, regras_renda_spec, firstMatch, decide_eq_true_eq]

/-! Claim C10. -/

/-- C10: the completed-hours input is coerced with missing values becoming 0
and clipped to [0, 100]; consequently a record with more than 100 completed
hours gets the same raw integralization risk as one with exactly 100. -/
theorem c10_ch_integralizada_clip :
    ch_integralizada_clean none = 0
    ∧ (∀ q : ℚ, ch_integralizada_clean (some q) = min 100 (max 0 q))
    ∧ (∀ (r : Record) (q : ℚ), r.ch_integralizada = some q → 100 < q →
        risco_chi_raw r = risco_chi_raw { r with ch_integralizada := some 100 }) := by
  refine ⟨by decide, fun q => rfl, fun r q hch h100 => ?_⟩
  have hclean : ch_integralizada_clean r.ch_integralizada
      = ch_integralizada_clean (some 100) := by
    rw [hch]
    unfold ch_integralizada_clean
    simp only [Option.getD_some]
    rw [max_eq_right (by linarith), max_eq_right (by norm_num),
      min_eq_left (le_of_lt h100), min_eq_left (le_refl 100)]
  unfold risco_chi_raw ch_media_esperada ajuste_tempo cond_boost porcentagem_aprov_num
  rw [hclean]
  rfl

/-- Witness for C10 at a record with 150 completed hours. -/
theorem c10_witness :
    risco_chi_raw { recBase with ch_integralizada := some 150 }
      = risco_chi_raw { recBase with ch_integralizada := some 100 } :=
  c10_ch_integralizada_clip.2.2 { recBase with ch_integralizada := some 150 } 150 rfl
    (by norm_num)

/-! Claim C6. -/

theorem dropWhile_not_digit_ne_nil {l : List Char} (h : l.any Char.isDigit = true) :
    l.dropWhile (fun c => !c.isDigit) ≠ [] := by
  induction l with
  | nil => simp at h
  | cons c t ih =>
    rw [List.dropWhile_cons]
    by_cases hc : c.isDigit
    · simp [hc]
    · simp only [List.any_cons, hc, Bool.false_or] at h
      simp [hc, ih h]

/-- C6 (amended): for every identifier value containing a digit, the
normalizer extracts the first digit run, parses it as an integer and emits
`"GRR"` followed by its decimal rendering — so leading zeros of the captured
run are dropped, not preserved. -/
theorem c6_grr_digit_run (s : String) (h : s.data.any Char.isDigit = true) :
    ∃ d : String, firstDigitRun s = some d ∧ d ≠ "" ∧ d.data.all Char.isDigit = true ∧
      padronizar_grr_valor s = some ("GRR" ++ toString (digitsToNat d)) := by
  cases hdw : s.data.dropWhile (fun c => !c.isDigit) with
  | nil => exact absurd hdw (dropWhile_not_digit_ne_nil h)
  | cons c t =>
    have hcdig : c.isDigit = true := by
      have hh := List.head?_dropWhile_not (fun c => !c.isDigit) s.data
      rw [hdw] at hh
      simpa using hh
    have hfd : firstDigitRun s = some (String.mk ((c :: t).takeWhile fun x => x.isDigit)) := by
      unfold firstDigitRun
      rw [hdw]
    refine ⟨String.mk ((c :: t).takeWhile fun x => x.isDigit), hfd, ?_, List.all_takeWhile, ?_⟩
    · intro hEq
      have hdata := congrArg String.data hEq
      rw [List.takeWhile_cons, if_pos hcdig] at hdata
      simp at hdata
    · simp [padronizar_grr_valor, hfd]

/-- C6 fails as stated: the captured digit run "0123" is emitted as
`"GRR123"`, not `"GRR0123"` (leading zero dropped by `astype(int)`). -/
theorem c6_counterexample :
    padronizar_grr_valor "0123" = some "GRR123"
    ∧ firstDigitRun "0123" = some "0123"
    ∧ padronizar_grr_spec "0123" = some ("GRR" ++ "0123")
    ∧ padronizar_grr_valor "0123" ≠ padronizar_grr_spec "0123" := by decide

/-- Witness for C6 at the value "ab0123". -/
theorem c6_witness :
    ("ab0123".data.any Char.isDigit = true)
    ∧ (∃ d : String, firstDigitRun "ab0123" = some d ∧ d ≠ ""
        ∧ d.data.all Char.isDigit = true
        ∧ padronizar_grr_valor "ab0123" = some ("GRR" ++ toString (digitsToNat d))) :=
  ⟨by decide, c6_grr_digit_run "ab0123" (by decide)⟩

/-! Claim C9. -/

/-- C9 (amended): every row whose normalized compliance signal is "SIM",
"NÃO" or missing matches one of the seven adherence rules, whatever the
presence flag and incoming-student flag, so such rows never receive the
fallback outcome; rows whose signal normalizes to any other text do reach
the fallback (see the counterexample). -/
theorem c9_adesao_rules_cover (st : Option String) (e i : Bool)
    (h : to_yesno st = some "SIM" ∨ to_yesno st = some "NÃO" ∨ to_yesno st = none) :
    (aplicar_indicador_acomp_adesao st e i).1 ≠ none
    ∧ (aplicar_indicador_acomp_adesao st e i).2 ≠ "Regra não classificada" := by
  unfold aplicar_indicador_acomp_adesao
  rcases h with h | h | h <;> cases e <;> cases i <;> simp [h]

/-- C9 fails as stated: a compliance text that normalizes neither to "SIM"
nor to "NÃO" nor to missing (here "TALVEZ") matches no rule and lands on
the fallback outcome. -/
theorem c9_counterexample :
    to_yesno (some "TALVEZ") = some "TALVEZ"
    ∧ (aplicar_indicador_acomp_adesao (some "TALVEZ") false false).1 = none
    ∧ (aplicar_indicador_acomp_adesao (some "TALVEZ") false false).2
        = "Regra não classificada" := by decide

/-- Witness for C9 at the raw signal "NAO" (canonicalized to "NÃO"). -/
theorem c9_witness :
    (aplicar_indicador_acomp_adesao (some "NAO") false false).1 ≠ none
    ∧ (aplicar_indicador_acomp_adesao (some "NAO") false false).2
        ≠ "Regra não classificada" :=
  c9_adesao_rules_cover (some "NAO") false false (Or.inr (Or.inl (by decide)))

/-! Claim C5. -/

/-- C5 (amended): `risco_hist_freq` and `risco_ch_integralizada` always lie
in [0,1]; `risco_rep_freq` and `risco_historico` are always in {0,1};
`risco_aprovacao` lies in [0,1] provided the approval percentage is within
[0,200]; `risco_cancelamento` lies in [0,1] whenever it is defined; and
`risco_ch_cursada` is in {0, 0.33, 0.66, 1.0} whenever it is defined.
(Unclipped approval percentages outside [0,200] and the undefined cases
falsify the unconditional claim; see the counterexample.) -/
theorem c5_subscore_ranges :
    (∀ p : ℚ, 0 ≤ p → p ≤ 200 → 0 ≤ risco_aprovacao (some p) ∧ risco_aprovacao (some p) ≤ 1)
    ∧ (∀ (c m : Option ℚ) (v : ℚ), risco_cancelamento c m = some v → 0 ≤ v ∧ v ≤ 1)
    ∧ (∀ m f : Option ℚ, risco_rep_freq m f = 0 ∨ risco_rep_freq m f = 1)
    ∧ (∀ h : Option ℚ, 0 ≤ risco_hist_freq h ∧ risco_hist_freq h ≤ 1)
    ∧ (∀ (rs : List Record) (i : ℕ) (v : ℚ),
        (risco_ch_integralizada_col rs).get? i = some v → 0 ≤ v ∧ v ≤ 1)
    ∧ (∀ c : Cell, risco_historico c = 0 ∨ risco_historico c = 1)
    ∧ (∀ (t : Option ℚ) (v : ℚ), risco_ch_cursada t = some v →
        v = 0 ∨ v = 33/100 ∨ v = 66/100 ∨ v = 1) := by
  refine ⟨fun p h0 h200 => ?_, fun c m v h => ?_, fun m f => ?_, fun h => ?_,
    fun rs i v h => ?_, fun c => ?_, fun t v h => ?_⟩
  · unfold risco_aprovacao
    simp only [Option.getD_some]
    constructor
    · positivity
    · nlinarith [sq_nonneg ((100 - p) / 100 - 1), sq_nonneg ((100 - p) / 100 + 1)]
  · match c, m with
    | none, none => exact absurd h (by simp [risco_cancelamento])
    | none, some m0 => exact absurd h (by simp [risco_cancelamento])
    | some c0, none => exact absurd h (by simp [risco_cancelamento])
    | some c0, some m0 =>
      unfold risco_cancelamento at h
      dsimp only at h
      split_ifs at h with h1 h2 h3 h4
      · cases h; exact ⟨zero_le_one, le_refl 1⟩
      · cases h; exact ⟨le_refl 0, zero_le_one⟩
      · cases h
        exact ⟨round2_nonneg zero_le_one, round2_le_one (le_refl 1)⟩
      · cases h
        have hmax0 : (0:ℚ) ≤ max 0 (round2 (c0 / m0)) := le_max_left 0 _
        have hmax1 : max 0 (round2 (c0 / m0)) ≤ 1 :=
          max_le zero_le_one (by linarith [lt_of_not_le h4])
        exact ⟨round2_nonneg hmax0, round2_le_one hmax1⟩
  · match m, f with
    | none, none => exact Or.inl rfl
    | none, some f0 => exact Or.inl rfl
    | some m0, none => exact Or.inl rfl
    | some m0, some f0 =>
      unfold risco_rep_freq
      dsimp only
      split_ifs <;> [exact Or.inr rfl; exact Or.inl rfl]
  · unfold risco_hist_freq
    exact ⟨le_min zero_le_one (le_max_left 0 _), min_le_left 1 _⟩
  · unfold risco_ch_integralizada_col at h
    split_ifs at h with hempty
    · rw [List.get?_map] at h
      obtain ⟨r, hr, hv⟩ := Option.map_eq_some'.mp h
      have hboost : cond_boost r = true := by
        have hnil : non_boost_raws rs = [] := List.isEmpty_iff.mp hempty
        unfold non_boost_raws at hnil
        have := List.map_eq_nil.mp hnil
        have hmem := List.filter_eq_nil_iff.mp this r (List.get?_mem hr)
        simpa using hmem
      rw [hboost, if_pos rfl] at hv
      rw [← hv, round2_one]
      exact ⟨zero_le_one, le_refl 1⟩
    · rw [List.get?_map] at h
      obtain ⟨r, hr, hv⟩ := Option.map_eq_some'.mp h
      by_cases hb : cond_boost r = true
      · rw [if_pos hb] at hv
        rw [← hv, round2_one]
        exact ⟨zero_le_one, le_refl 1⟩
      · rw [if_neg hb] at hv
        set y := (risco_chi_raw r - chi_min_val rs) / chi_span rs with hy
        have hm0 : (0:ℚ) ≤ min 1 (max 0 y) := le_min zero_le_one (le_max_left 0 y)
        have hm1 : min 1 (max 0 y) ≤ 1 := min_le_left 1 _
        have hx0 : (0:ℚ) ≤ min 1 (max 0 y) * (1/4) := by positivity
        have hx1 : min 1 (max 0 y) * (1/4) ≤ 1 := by nlinarith
        rw [← hv]
        exact ⟨round2_nonneg hx0, round2_le_one hx1⟩
  · unfold risco_historico
    split_ifs <;> [exact Or.inr rfl; exact Or.inl rfl]
  · unfold risco_ch_cursada at h
    dsimp only at h
    split_ifs at h
    · cases h; exact Or.inl rfl
    · cases h; exact Or.inr (Or.inl rfl)
    · cases h; exact Or.inr (Or.inr (Or.inl rfl))
    · cases h; exact Or.inr (Or.inr (Or.inr rfl))

/-- C5 fails as stated: an approval percentage of 300 (no clipping in the
source) drives `risco_aprovacao` to 4, outside [0,1]. -/
theorem c5_counterexample :
    risco_aprovacao (some 300) = 4 ∧ ¬(risco_aprovacao (some 300) ≤ 1) := by decide

/-- Witness for C5 at concrete inputs. -/
theorem c5_witness :
    (0 ≤ risco_aprovacao (some 80) ∧ risco_aprovacao (some 80) ≤ 1)
    ∧ (0 ≤ (33/100 : ℚ) ∧ (33/100 : ℚ) ≤ 1)
    ∧ (0 ≤ (3/25 : ℚ) ∧ (3/25 : ℚ) ≤ 1)
    ∧ ((1 : ℚ) = 0 ∨ (1 : ℚ) = 33/100 ∨ (1 : ℚ) = 66/100 ∨ (1 : ℚ) = 1) :=
  ⟨c5_subscore_ranges.1 80 (by norm_num) (by norm_num),
   c5_subscore_ranges.2.1 (some 1) (some 3) (33/100) (by decide),
   c5_subscore_ranges.2.2.2.2.1 demo3 1 (3/25) (by decide),
   c5_subscore_ranges.2.2.2.2.2.2 (some 50) 1 (by decide)⟩

/-! Claim C7. -/

theorem risco_ch_integralizada_col_length (rs : List Record) :
    (risco_ch_integralizada_col rs).length = rs.length := by
  unfold risco_ch_integralizada_col
  split_ifs <;> rw [List.length_map]

/-- C7 (amended): the scoring pass drops no row, and every derived numeric
field is always defined except four: `risco_cancelamento` (missing exactly
when a count is missing or both counts are zero), `risco_ch_cursada`
(missing exactly in the step-function gaps), `indicador-acomp-adesao`
(missing exactly for a non-incoming row whose signal normalizes neither to
"SIM" nor "NÃO" nor missing), and `ITA` (missing exactly when an input of
the blend is missing). -/
theorem c7_defined_fields :
    (∀ rs : List Record, (scoreRecords rs).length = rs.length)
    ∧ (∀ c m : Option ℚ, risco_cancelamento c m = none ↔
        (c = none ∨ m = none ∨ (c = some 0 ∧ m = some 0)))
    ∧ (∀ t : Option ℚ, risco_ch_cursada t = none ↔
        ((99 < tempo_ufpr_clean t ∧ tempo_ufpr_clean t < 100)
          ∨ (199 < tempo_ufpr_clean t ∧ tempo_ufpr_clean t < 200)
          ∨ (299 < tempo_ufpr_clean t ∧ tempo_ufpr_clean t < 300)))
    ∧ (∀ (st : Option String) (e i : Bool), (aplicar_indicador_acomp_adesao st e i).1 = none ↔
        (i = false ∧ to_yesno st ≠ some "SIM" ∧ to_yesno st ≠ some "NÃO" ∧ to_yesno st ≠ none))
    ∧ (∀ nf pr ia : Option ℚ, ita_score nf pr ia = none ↔
        (nf = none ∨ pr = none ∨ ia = none)) := by
  refine ⟨fun rs => ?_, fun c m => ?_, fun t => ?_, fun st e i => ?_, fun nf pr ia => ?_⟩
  · unfold scoreRecords
    rw [List.length_map, List.length_zip, risco_ch_integralizada_col_length, min_self]
  · match c, m with
    | none, none => simp [risco_cancelamento]
    | none, some m0 => simp [risco_cancelamento]
    | some c0, none => simp [risco_cancelamento]
    | some c0, some m0 =>
      unfold risco_cancelamento
      dsimp only
      split_ifs with h1 h2 h3
      · refine iff_of_false (by simp) ?_
        rintro (h | h | ⟨hc, hm⟩)
        · exact h
        · exact h
        · rw [Option.some_inj] at hc
          rw [hc] at h2
          exact lt_irrefl 0 h2
      · refine iff_of_false (by simp) ?_
        rintro (h | h | ⟨hc, hm⟩)
        · exact h
        · exact h
        · rw [Option.some_inj] at hc
          rw [hc] at h3
          exact lt_irrefl 0 h3
      · have hc0 : c0 = 0 := le_antisymm (not_lt.mp h2) (not_lt.mp h3)
        exact iff_of_true rfl (Or.inr (Or.inr ⟨by rw [hc0], by rw [h1]⟩))
      · refine iff_of_false (by simp) ?_
        rintro (h | h | ⟨hc, hm⟩)
        · exact h
        · exact h
        · rw [Option.some_inj] at hm
          exact h1 hm
  · unfold risco_ch_cursada
    dsimp only
    have ht1 : 1 ≤ tempo_ufpr_clean t := le_max_left 1 _
    set x := tempo_ufpr_clean t with hx
    split_ifs with h300 h200 h100 h99
    · simp only [Option.some_ne_none, false_iff]
      rintro (⟨a, b⟩ | ⟨a, b⟩ | ⟨a, b⟩) <;> linarith
    · simp only [Option.some_ne_none, false_iff]
      rintro (⟨a, b⟩ | ⟨a, b⟩ | ⟨a, b⟩) <;> [linarith; linarith; linarith [h200.1, h200.2]]
    · simp only [Option.some_ne_none, false_iff]
      rintro (⟨a, b⟩ | ⟨a, b⟩ | ⟨a, b⟩) <;> [linarith; linarith [h100.1, h100.2]; linarith [h100.1, h100.2]]
    · simp only [Option.some_ne_none, false_iff]
      rintro (⟨a, b⟩ | ⟨a, b⟩ | ⟨a, b⟩) <;> linarith [h99.1, h99.2]
    · simp only [true_iff]
      push_neg at h300 h200 h100 h99
      have hgap1 : 99 < x := h99 (by linarith)
      rcases lt_or_le x 100 with hlt | hge
      · exact Or.inl ⟨hgap1, hlt⟩
      · have hgap2 : 199 < x := h100 hge
        rcases lt_or_le x 200 with hlt2 | hge2
        · exact Or.inr (Or.inl ⟨hgap2, hlt2⟩)
        · have hgap3 : 299 < x := h200 hge2
          exact Or.inr (Or.inr ⟨hgap3, h300⟩)
  · unfold aplicar_indicador_acomp_adesao
    cases hst : to_yesno st with
    | none => cases e <;> cases i <;> simp [hst]
    | some sv =>
      by_cases h1 : sv = "SIM"
      · subst h1; cases e <;> cases i <;> simp [hst]
      · by_cases h2 : sv = "NÃO"
        · subst h2; cases e <;> cases i <;> simp [hst]
        · cases e <;> cases i <;> simp [hst, h1, h2]
  · match nf, pr, ia with
    | none, _, _ => simp [ita_score]
    | some a, none, _ => simp [ita_score]
    | some a, some b, none => simp [ita_score]
    | some a, some b, some c => simp [ita_score]

/-- C7 fails as stated: a row whose cancellation count is missing carries a
missing `risco_cancelamento` through the whole scoring pass (the field stays
NaN rather than resolving to a default). -/
theorem c7_counterexample :
    (scoreRecords [recBase]).map (fun s => s.risco_cancelamento_v) = [none]
    ∧ recBase.qtd_matricula_cancelada = none := by decide

/-! Claim C1. -/

/-- C1 (amended): `risco_ch_integralizada` is computed in two populations —
boosted records become exactly 1.0; each non-boosted record gets its raw
risk rescaled by the 5th percentile and the (95th−5th) percentile span of
raw risk over all non-boosted records (span replaced by 1 when zero),
clipped to [0,1], multiplied by 0.25 and finally rounded to 2 decimals
(the rounding step being the amendment) — and on the population with
non-boosted raw risks 0,1,...,100 the minimum maps to 0 and the record at
the 95th percentile to exactly 0.25. -/
theorem c1_chi_two_population :
    (∀ (rs : List Record) (i : ℕ) (r : Record), rs.get? i = some r →
      (non_boost_raws rs).isEmpty = false →
      (risco_ch_integralizada_col rs).get? i = some (if cond_boost r then 1
        else round2 ((min 1 (max 0 ((risco_chi_raw r - chi_min_val rs) / chi_span rs))) * (1/4))))
    ∧ non_boost_raws demo101 = (List.range 101).map (fun k => (k : ℚ))
    ∧ chi_min_val demo101 = 5 ∧ chi_max_val demo101 = 95 ∧ chi_span demo101 = 90
    ∧ (risco_ch_integralizada_col demo101).get? 0 = some 0
    ∧ (risco_ch_integralizada_col demo101).get? 95 = some (1/4) := by
  refine ⟨fun rs i r hr hne => ?_, by set_option maxRecDepth 100000 in decide,
    by set_option maxRecDepth 100000 in decide, by set_option maxRecDepth 100000 in decide,
    by set_option maxRecDepth 100000 in decide, by set_option maxRecDepth 100000 in decide,
    by set_option maxRecDepth 100000 in decide⟩
  unfold risco_ch_integralizada_col
  rw [if_neg (by rw [hne]; exact Bool.false_ne_true)]
  rw [List.get?_map, hr]
  cases hb : cond_boost r
  · simp [hb]
  · simp [hb, round2_one]

/-- C1 fails exactly as stated: the source applies a final `round(2)` the
claim omits; on raw risks 0,1,2 the middle record gets 0.12 from the code
but 0.125 from the claim's formula. -/
theorem c1_counterexample :
    risco_ch_integralizada_col demo3 = [0, 3/25, 1/4]
    ∧ risco_ch_integralizada_spec_col demo3 = [0, 1/8, 1/4]
    ∧ risco_ch_integralizada_col demo3 ≠ risco_ch_integralizada_spec_col demo3 := by
  set_option maxRecDepth 100000 in decide

/-- Witness for C1 at record 3 of the demo population. -/
theorem c1_witness :
    (risco_ch_integralizada_col demo101).get? 3 = some (if cond_boost (demoRec 3) then 1
      else round2 ((min 1 (max 0 ((risco_chi_raw (demoRec 3) - chi_min_val demo101)
        / chi_span demo101))) * (1/4))) :=
  c1_chi_two_population.1 demo101 3 (demoRec 3)
    (by set_option maxRecDepth 100000 in decide)
    (by set_option maxRecDepth 100000 in decide)

/-! Claim C3. -/

section MergerProofs

variable {κ : Type} [DecidableEq κ] {α β : Type}

theorem mem_drop_duplicates_keep_last {xs : List (κ × α)} {x : κ × α}
    (h : x ∈ drop_duplicates_keep_last xs) : x ∈ xs := by
  induction xs with
  | nil => exact absurd h (List.not_mem_nil x)
  | cons y t ih =>
    unfold drop_duplicates_keep_last at h
    split_ifs at h with hdup
    · exact List.mem_cons_of_mem y (ih h)
    · rcases List.mem_cons.mp h with rfl | h2
      · exact List.mem_cons_self _ _
      · exact List.mem_cons_of_mem y (ih h2)

theorem keys_nodup_dedup {xs : List (κ × α)} :
    ((drop_duplicates_keep_last xs).map Prod.fst).Nodup := by
  induction xs with
  | nil => simp [drop_duplicates_keep_last]
  | cons y t ih =>
    unfold drop_duplicates_keep_last
    split_ifs with hdup
    · exact ih
    · rw [List.map_cons]
      refine List.nodup_cons.mpr ⟨?_, ih⟩
      intro hmem
      rcases List.mem_map.mp hmem with ⟨z, hz, hzk⟩
      exact hdup (List.any_eq_true.mpr
        ⟨z, mem_drop_duplicates_keep_last hz, decide_eq_true hzk⟩)

theorem rightMatches_len_le_one {ys : List (κ × β)} (h : (ys.map Prod.fst).Nodup) (k : κ) :
    (rightMatches ys k).length ≤ 1 := by
  unfold rightMatches
  rw [List.length_map]
  induction ys with
  | nil => simp
  | cons y t ih =>
    rw [List.map_cons, List.nodup_cons] at h
    rw [List.filter_cons]
    by_cases hy : y.1 = k
    · rw [if_pos (decide_eq_true hy)]
      have hnil : t.filter (fun s => decide (s.1 = k)) = [] := by
        rw [List.filter_eq_nil_iff]
        intro a ha hpa
        have hak : a.1 = k := of_decide_eq_true hpa
        exact h.1 (List.mem_map.mpr ⟨a, ha, by rw [hak, hy]⟩)
      rw [hnil]
      simp
    · rw [if_neg (by simpa using hy)]
      exact ih h.2

theorem merge_left_row_length {ys : List (κ × β)} (h : (ys.map Prod.fst).Nodup) (x : κ × α) :
    (merge_left_row ys x).length = 1 := by
  unfold merge_left_row
  have hle := rightMatches_len_le_one h x.1
  cases hms : rightMatches ys x.1 with
  | nil => simp
  | cons b bs =>
    cases bs with
    | nil => simp
    | cons b2 bs2 => rw [hms] at hle; simp at hle

theorem merge_outer_row_keys {ys : List (κ × β)} (h : (ys.map Prod.fst).Nodup) (x : κ × α) :
    (merge_outer_row ys x).map Prod.fst = [x.1] := by
  unfold merge_outer_row
  have hle := rightMatches_len_le_one h x.1
  cases hms : rightMatches ys x.1 with
  | nil => simp
  | cons b bs =>
    cases bs with
    | nil => simp
    | cons b2 bs2 => rw [hms] at hle; simp at hle

theorem merge_left_length {xs : List (κ × α)} {ys : List (κ × β)}
    (h : (ys.map Prod.fst).Nodup) : (merge_left xs ys).length = xs.length := by
  unfold merge_left
  induction xs with
  | nil => rfl
  | cons x t ih =>
    rw [List.flatMap_cons, List.length_append, ih, merge_left_row_length h, List.length_cons]
    omega

theorem keys_merge_outer {xs : List (κ × α)} {ys : List (κ × β)}
    (h : (ys.map Prod.fst).Nodup) :
    (merge_outer xs ys).map Prod.fst = xs.map Prod.fst
      ++ ((ys.filter fun s => !(xs.any fun x => decide (x.1 = s.1))).map Prod.fst) := by
  unfold merge_outer
  rw [List.map_append]
  congr 1
  · induction xs with
    | nil => rfl
    | cons x t ih =>
      rw [List.flatMap_cons, List.map_append, ih, merge_outer_row_keys h, List.map_cons]
      rfl
  · rw [List.map_map]
    rfl

theorem keys_nodup_merge_outer {xs : List (κ × α)} {ys : List (κ × β)}
    (hx : (xs.map Prod.fst).Nodup) (hy : (ys.map Prod.fst).Nodup) :
    ((merge_outer xs ys).map Prod.fst).Nodup := by
  rw [keys_merge_outer hy, List.nodup_append]
  refine ⟨hx, hy.sublist (List.Sublist.map Prod.fst (List.filter_sublist ys)), ?_⟩
  intro k hk1 hk2
  rcases List.mem_map.mp hk2 with ⟨s, hs, hsk⟩
  rcases List.mem_filter.mp hs with ⟨hsy, hpred⟩
  rcases List.mem_map.mp hk1 with ⟨x, hx2, hxk⟩
  have hany : (xs.any fun x => decide (x.1 = s.1)) = false := by
    simpa using hpred
  have := List.any_eq_false.mp hany x hx2
  exact this (by rw [decide_eq_true_eq, hxk, hsk])

end MergerProofs

/-- C3 (amended): after deduplicating each auxiliary source on `GRR`
(keeping the last occurrence) and outer-unioning the three service sources,
the left join onto the scored detail table preserves its row count exactly;
the final left join of the normalized form table preserves the count as
well provided the form table carries at most one row per key — without
that proviso (the source never deduplicates the form table) the final join
can multiply rows, see the counterexample. -/
theorem c3_row_count {κ : Type} [DecidableEq κ] {β1 β2 β3 δ ε : Type}
    (detail : List (κ × δ)) (social : List (κ × β1)) (psicologia : List (κ × β2))
    (geral : List (κ × β3)) (form : List (κ × ε))
    (hform : (form.map Prod.fst).Nodup) :
    (merged_final detail social psicologia geral form).length = detail.length := by
  unfold merged_final
  rw [merge_left_length hform]
  unfold servicos_unificado
  exact merge_left_length
    (keys_nodup_merge_outer (keys_nodup_merge_outer keys_nodup_dedup keys_nodup_dedup)
      keys_nodup_dedup)

/-- C3 fails as stated: with a duplicate key in the (never deduplicated)
normalized form table, the final left join multiplies rows — one detail row
becomes two output rows. -/
theorem c3_counterexample :
    (merged_final [(("GRR1" : String), (0 : ℕ))] ([] : List (String × ℕ))
      ([] : List (String × ℕ)) ([] : List (String × ℕ))
      [(("GRR1" : String), (1 : ℕ)), (("GRR1" : String), (2 : ℕ))]).length = 2
    ∧ (2 : ℕ) ≠ 1 := by decide

/-- Witness for C3 at small concrete tables (with a duplicate inside an
auxiliary source, removed by the dedup). -/
theorem c3_witness :
    (merged_final [(("GRR1" : String), (0 : ℕ)), (("GRR2" : String), (1 : ℕ))]
      [(("GRR1" : String), (10 : ℕ)), (("GRR1" : String), (11 : ℕ))]
      [(("GRR2" : String), (20 : ℕ))] ([] : List (String × ℕ))
      [(("GRR2" : String), (30 : ℕ))]).length
      = [(("GRR1" : String), (0 : ℕ)), (("GRR2" : String), (1 : ℕ))].length :=
  c3_row_count _ _ _ _ _ (by decide)

end ITA
